import Mathlib

/-!
Shallow embedding of the 7TV-to-Telegram sticker conversion pipeline
(source: 7tv_telegram_bot.py, class SevenTVToTelegramBot) and proofs of
the specification claims about it.

Network and platform effects are modelled as explicit oracles:
`net : String → HttpImageResp` stands for the asset-host HTTP layer used
by download_emote_image, `publish : PublishCall → Except String Bool`
stands for bot.create_new_sticker_set (an exception message, or the
returned boolean), and a `MetaResp` value stands for the response of the
7TV metadata API.  Traces record which calls the code makes so that
claims about calls never happening can be stated.
-/

deriving instance DecidableEq for Except

namespace SevenTV

/-- One entry of the JSON array emote.data.host.files (only the name
field is consulted by the code, lines 64-74). -/
structure HostFile where
  name : String
deriving Repr, DecidableEq

/-- The JSON object emote.data.host: a scheme-relative url base and the
files array (lines 64-73). -/
structure EmoteHost where
  url : String
  files : List HostFile
deriving Repr, DecidableEq

/-- The JSON object emote.data (line 64). -/
structure EmoteData where
  host : EmoteHost
deriving Repr, DecidableEq

/-- One entry of the emotes array: a display name and the nested data
(lines 59-60). -/
structure Emote where
  name : String
  data : EmoteData
deriving Repr, DecidableEq

/-- The metadata payload returned by the 7TV API.  Both top-level keys
are optional: the code reads name with a defaulting get (line 129),
reads emotes directly (line 59) and with a defaulting get (line 136). -/
structure EmotesData where
  name : Option String
  emotes : Option (List Emote)
deriving Repr, DecidableEq

/-- PIL resampling filters, as far as the code distinguishes them
(line 43 passes LANCZOS; NEAREST is the low-quality alternative the
spec rules out). -/
inductive ResampleFilter
  | NEAREST
  | LANCZOS
deriving Repr, DecidableEq

/-- An abstract decoded PIL image: color mode and pixel dimensions,
the attributes the code inspects or changes (lines 36-43). -/
structure PILImage where
  mode : String
  width : Nat
  height : Nat
deriving Repr, DecidableEq

/-- An asset-host HTTP response: the status code, and the decoded image
when the payload parses as an image (none models a payload on which
Image.open raises). -/
structure HttpImageResp where
  status : Nat
  image : Option PILImage
deriving Repr, DecidableEq

/-- A per-item transcoding failure: the exception raised inside
download_emote_image (line 52) or by Image.open (line 36). -/
inductive TranscodeErr
  | downloadError (status : Nat)
  | decodeError
deriving Repr, DecidableEq

/-- The image produced by download_emote_image: mode, dimensions, the
re-encoded format (line 47), and the resampling filter that was passed
to resize (line 43). -/
structure TranscodedImage where
  mode : String
  width : Nat
  height : Nat
  format : String
  filter : ResampleFilter
deriving Repr, DecidableEq

/-- PIL Image.convert: changes the color mode, keeps the dimensions. -/
def img_convert (img : PILImage) (m : String) : PILImage :=
  { img with mode := m }

/-- PIL Image.resize: forces the given dimensions, keeps the mode.
Aspect ratio is not consulted. -/
def img_resize (img : PILImage) (w h : Nat) : PILImage :=
  { img with width := w, height := h }

/-- download_emote_image (lines 28-52): on status 200 decode the bytes,
convert to RGBA when the mode differs (lines 39-40), resize to 512x512
with LANCZOS (line 43), save as PNG (line 47); on any other status raise
the download exception (line 52); an undecodable payload raises inside
Image.open, surfaced here as decodeError. -/
def download_emote_image (resp : HttpImageResp) : Except TranscodeErr TranscodedImage :=
  if resp.status = 200 then
    match resp.image with
    | none => .error .decodeError
    | some img0 =>
      let img1 := if img0.mode = "RGBA" then img0 else img_convert img0 "RGBA"
      let img2 := img_resize img1 512 512
      .ok { mode := img2.mode, width := img2.width, height := img2.height,
            format := "PNG", filter := ResampleFilter.LANCZOS }
  else
    .error (.downloadError resp.status)

/-- URL construction of lines 66 and 73: the https scheme prefix, the
scheme-relative host url, a slash, and the file name. -/
def emote_image_url (e : Emote) (f : HostFile) : String :=
  "https:" ++ e.data.host.url ++ "/" ++ f.name

/-- Variant selection of lines 62-74: scan the files array for the first
entry named exactly 2x.webp; only if none exists, scan again for the
first entry named exactly 1x.webp; otherwise no URL is selected. -/
def select_image_url (e : Emote) : Option String :=
  match e.data.host.files.find? (fun h => h.name == "2x.webp") with
  | some h => some (emote_image_url e h)
  | none =>
    match e.data.host.files.find? (fun h => h.name == "1x.webp") with
    | some h => some (emote_image_url e h)
    | none => none

/-- telegram.InputSticker as built at lines 82-86: the transcoded image,
the default emoji list, and the static format tag. -/
structure InputSticker where
  sticker : TranscodedImage
  emoji_list : List String
  format : String
deriving Repr, DecidableEq

/-- The InputSticker literal of lines 82-86. -/
def mk_input_sticker (t : TranscodedImage) : InputSticker :=
  { sticker := t, emoji_list := ["😀"], format := "static" }

/-- Accumulated outcome of the per-emote loop (lines 59-93): the sticker
list, the failure messages printed at line 92 as (emote name, reason)
pairs, and the asset URLs that were downloaded. -/
structure ProcessAcc where
  stickers : List InputSticker
  failures : List (String × TranscodeErr)
  downloads : List String
deriving Repr, DecidableEq

/-- The per-emote loop of lines 59-93: for each emote in order, select a
variant URL; when none is selected the emote is skipped with no record
(the if at line 76 guards the whole body); otherwise download and
transcode, appending a sticker on success and recording
(emote name, reason) on failure (lines 91-93), then continue. -/
def process_emotes (net : String → HttpImageResp) : List Emote → ProcessAcc
  | [] => { stickers := [], failures := [], downloads := [] }
  | e :: rest =>
    let tail := process_emotes net rest
    match select_image_url e with
    | none => tail
    | some url =>
      match download_emote_image (net url) with
      | .ok t =>
        { stickers := mk_input_sticker t :: tail.stickers,
          failures := tail.failures,
          downloads := url :: tail.downloads }
      | .error err =>
        { stickers := tail.stickers,
          failures := (e.name, err) :: tail.failures,
          downloads := url :: tail.downloads }

/-- Python-level errors that escape the conversion functions: a KeyError
from indexing a missing key, or an Exception with a message. -/
inductive PyErr
  | keyError (key : String)
  | exception (msg : String)
deriving Repr, DecidableEq

/-- The argument record of the bot.create_new_sticker_set call at
lines 97-103. -/
structure PublishCall where
  user_id : Nat
  name : String
  title : String
  stickers : List InputSticker
  sticker_format : String
deriving Repr, DecidableEq

/-- Trace of one create_telegram_sticker_set run: the publish calls
made, the asset URLs downloaded, the recorded per-item failures, and the
returned sticker-set URL or the escaping error. -/
structure CreateTrace where
  publishCalls : List PublishCall
  downloads : List String
  failures : List (String × TranscodeErr)
  result : Except PyErr String
deriving Repr, DecidableEq

/-- Lines 96-112: call bot.create_new_sticker_set once with the batch;
a True result returns the addstickers URL (lines 105-107), a falsy
result raises at line 109, which the except clause at line 111 rewraps,
as it also rewraps any platform exception. -/
def publish_step (publish : PublishCall → Except String Bool)
    (call : PublishCall) (p : ProcessAcc) : CreateTrace :=
  match publish call with
  | .ok true =>
    { publishCalls := [call], downloads := p.downloads, failures := p.failures,
      result := .ok ("https://t.me/addstickers/" ++ call.name) }
  | .ok false =>
    { publishCalls := [call], downloads := p.downloads, failures := p.failures,
      result := .error (.exception
        "Error creating sticker set: Failed to create sticker set") }
  | .error msg =>
    { publishCalls := [call], downloads := p.downloads, failures := p.failures,
      result := .error (.exception ("Error creating sticker set: " ++ msg)) }

/-- create_telegram_sticker_set (lines 54-112): index the emotes key
directly (line 59, a KeyError when absent), run the per-emote loop, then
publish the batch truncated to 50 items (line 101).  There is no guard
on an empty batch: the publish call is made unconditionally once the
loop finishes. -/
def create_telegram_sticker_set (net : String → HttpImageResp)
    (publish : PublishCall → Except String Bool)
    (user_id : Nat) (set_name set_title : String)
    (emotes_data : EmotesData) : CreateTrace :=
  match emotes_data.emotes with
  | none =>
    { publishCalls := [], downloads := [], failures := [],
      result := .error (.keyError "emotes") }
  | some es =>
    let p := process_emotes net es
    publish_step publish
      { user_id := user_id, name := set_name, title := set_title,
        stickers := p.stickers.take 50, sticker_format := "static" } p

/-- The 7TV metadata API response: status code, and the JSON body that
a 200 response carries. -/
structure MetaResp where
  status : Nat
  body : EmotesData
deriving Repr, DecidableEq

/-- get_7tv_emote_set (lines 15-26): return the body on status 200,
raise the fetch exception with the status otherwise. -/
def get_7tv_emote_set (resp : MetaResp) : Except PyErr EmotesData :=
  if resp.status = 200 then .ok resp.body
  else .error (.exception ("Failed to fetch 7TV data: " ++ toString resp.status))

/-- Python truthiness of the optional custom_name argument: None and the
empty string are falsy (the if at line 124). -/
def py_truthy (s : Option String) : Bool :=
  match s with
  | none => false
  | some t => t != ""

/-- The set-name derivation of lines 124-127: custom_name plus the
suffix when custom_name is truthy, the 7tv-prefixed default otherwise. -/
def derive_set_name (custom_name : Option String) (set_id bot_username : String) : String :=
  if py_truthy custom_name then custom_name.getD "" ++ "_by_" ++ bot_username
  else "7tv_" ++ set_id ++ "_by_" ++ bot_username

/-- Trace of one convert_7tv_set run: the calls made and the result,
which on success is the sticker-set URL paired with the emote count of
line 136. -/
structure ConvertTrace where
  publishCalls : List PublishCall
  downloads : List String
  failures : List (String × TranscodeErr)
  result : Except PyErr (String × Nat)
deriving Repr, DecidableEq

/-- Lines 132-136: forward the inner trace, pairing a successful URL
with len of the defaulting emotes lookup (line 136). -/
def finish_convert (tr : CreateTrace) (count : Nat) : ConvertTrace :=
  { publishCalls := tr.publishCalls, downloads := tr.downloads,
    failures := tr.failures,
    result :=
      match tr.result with
      | .error e => .error e
      | .ok url => .ok (url, count) }

/-- convert_7tv_set (lines 114-136): fetch the metadata (an exception
there escapes before any per-item work), derive the set name from the
custom name, the set id and the bot username, take the set title from
the name key with a default (line 129), run
create_telegram_sticker_set, and return the URL with the count
len of emotes_data.get of emotes defaulting to the empty list. -/
def convert_7tv_set (net : String → HttpImageResp)
    (publish : PublishCall → Except String Bool)
    (bot_username : String) (user_id : Nat) (set_id : String)
    (custom_name : Option String) (metaResp : MetaResp) : ConvertTrace :=
  match get_7tv_emote_set metaResp with
  | .error e =>
    { publishCalls := [], downloads := [], failures := [], result := .error e }
  | .ok emotes_data =>
    let set_name := derive_set_name custom_name set_id bot_username
    let set_title := emotes_data.name.getD ("7TV Emotes - " ++ set_id)
    finish_convert
      (create_telegram_sticker_set net publish user_id set_name set_title emotes_data)
      ((emotes_data.emotes.getD []).length)

/-- Spec-side resolver, for comparison with select_image_url: walk a
fixed preference chain and return the first file whose name matches the
first chain entry that matches at all.  Written from the spec words
about the selection policy: highest-preference label first, first
occurrence in source order within a label, none when no entry matches. -/
def resolve_by_chain (chain : List String) (files : List HostFile) : Option HostFile :=
  match chain with
  | [] => none
  | c :: cs =>
    match files.find? (fun f => f.name == c) with
    | some f => some f
    | none => resolve_by_chain cs files

/-! Concrete example inputs used by witnesses and counterexamples. -/

/-- An asset host that always answers 200 with a decodable non-square
palette-mode image. -/
def netOK : String → HttpImageResp :=
  fun _ => { status := 200, image := some { mode := "P", width := 37, height := 91 } }

/-- A platform that accepts every create-sticker-set call. -/
def pubOK : PublishCall → Except String Bool :=
  fun _ => .ok true

/-- An emote with a distinct host url per index and a single 2x.webp
variant. -/
def mkEmote (i : Nat) : Emote :=
  { name := "e" ++ toString i,
    data := { host := { url := "//cdn.7tv.app/emote/" ++ toString i,
                        files := [{ name := "2x.webp" }] } } }

/-- Sixty resolvable emotes. -/
def emotes60 : List Emote := (List.range 60).map mkEmote

/-- A 200 metadata response carrying the sixty resolvable emotes. -/
def meta60 : MetaResp :=
  { status := 200, body := { name := some "Set60", emotes := some emotes60 } }

/-- An emote whose files array is empty: no variant can be selected. -/
def emoteNoVariant : Emote :=
  { name := "ghost", data := { host := { url := "//cdn.7tv.app/emote/g", files := [] } } }

/-- A 200 metadata response whose only emote has no usable variant. -/
def metaEmpty : MetaResp :=
  { status := 200, body := { name := none, emotes := some [emoteNoVariant] } }

/-- An emote publishing only non-webp encodings of the 2x and 1x
quality labels. -/
def emoteAvif : Emote :=
  { name := "avifonly",
    data := { host := { url := "//cdn.7tv.app/emote/a",
                        files := [{ name := "2x.avif" }, { name := "1x.png" }] } } }

/-- An asset host that answers 500 for one given url and 200 with a
decodable image for every other url. -/
def netFail (bad : String) : String → HttpImageResp :=
  fun u =>
    if u = bad then { status := 500, image := none }
    else { status := 200, image := some { mode := "RGBA", width := 64, height := 64 } }

/-! Helper lemmas shared by the claim theorems. -/

/-- The per-emote loop distributes over list append: each emote
contributes independently, in source order. -/
theorem process_emotes_append (net : String → HttpImageResp) (xs ys : List Emote) :
    process_emotes net (xs ++ ys) =
      { stickers := (process_emotes net xs).stickers ++ (process_emotes net ys).stickers,
        failures := (process_emotes net xs).failures ++ (process_emotes net ys).failures,
        downloads := (process_emotes net xs).downloads ++ (process_emotes net ys).downloads } := by
  induction xs with
  | nil => simp [process_emotes]
  | cons e rest ih =>
    cases h : select_image_url e with
    | none => simp [process_emotes, h, ih]
    | some url =>
      cases hd : download_emote_image (net url) with
      | ok t => simp [process_emotes, h, hd, ih]
      | error err => simp [process_emotes, h, hd, ih]

/-- publish_step always records exactly its one platform call. -/
theorem publish_step_calls (publish : PublishCall → Except String Bool)
    (call : PublishCall) (p : ProcessAcc) :
    (publish_step publish call p).publishCalls = [call] := by
  unfold publish_step
  cases publish call with
  | error m => rfl
  | ok b => cases b <;> rfl

/-- publish_step forwards the failure log of the loop unchanged. -/
theorem publish_step_failures (publish : PublishCall → Except String Bool)
    (call : PublishCall) (p : ProcessAcc) :
    (publish_step publish call p).failures = p.failures := by
  unfold publish_step
  cases publish call with
  | error m => rfl
  | ok b => cases b <;> rfl

/-- finish_convert forwards the publish calls of the inner trace. -/
theorem finish_convert_publishCalls (tr : CreateTrace) (n : Nat) :
    (finish_convert tr n).publishCalls = tr.publishCalls := rfl

/-- finish_convert forwards the failure log of the inner trace. -/
theorem finish_convert_failures (tr : CreateTrace) (n : Nat) :
    (finish_convert tr n).failures = tr.failures := rfl

/-- A non-square palette-mode 200 response, exercising both the mode
conversion and the forced square resize. -/
def respNonSquare : HttpImageResp :=
  { status := 200, image := some { mode := "P", width := 37, height := 91 } }

/-- The transcoded image produced from respNonSquare. -/
def tExample : TranscodedImage :=
  { mode := "RGBA", width := 512, height := 512, format := "PNG",
    filter := ResampleFilter.LANCZOS }

/-- A 404 metadata response. -/
def meta404 : MetaResp :=
  { status := 404, body := { name := none, emotes := none } }

/-- A 200 metadata response whose JSON body lacks the emotes key. -/
def metaNoKey : MetaResp :=
  { status := 200, body := { name := some "NoEmotes", emotes := none } }

/-- C4: for every input, every create-sticker-set call the conversion
makes carries at most 50 stickers: the batch is truncated to the
platform capacity (line 101) and surplus transcoded items are dropped
rather than raising an error. -/
theorem c4_batch_le_capacity (net : String → HttpImageResp)
    (publish : PublishCall → Except String Bool) (bu : String) (uid : Nat)
    (sid : String) (cn : Option String) (mr : MetaResp) (c : PublishCall)
    (hc : c ∈ (convert_7tv_set net publish bu uid sid cn mr).publishCalls) :
    c.stickers.length ≤ 50 := by
  unfold convert_7tv_set at hc
  by_cases hs : mr.status = 200
  · simp only [get_7tv_emote_set, hs, if_pos, if_true] at hc
    rw [finish_convert_publishCalls] at hc
    unfold create_telegram_sticker_set at hc
    cases hk : mr.body.emotes with
    | none => rw [hk] at hc; simp at hc
    | some es =>
      rw [hk] at hc
      rw [publish_step_calls] at hc
      simp only [List.mem_singleton] at hc
      subst hc
      simp only [List.length_take]
      omega
  · simp [get_7tv_emote_set, hs] at hc

/-- Witness for C4 at a concrete conversion. -/
theorem c4_witness :
    ((convert_7tv_set netOK pubOK "bot" 1 "S" none metaEmpty).publishCalls.headD
        { user_id := 0, name := "", title := "", stickers := [],
          sticker_format := "" }).stickers.length ≤ 50 :=
  c4_batch_le_capacity netOK pubOK "bot" 1 "S" none metaEmpty _ (by decide)

/-- C5: variant selection follows the fixed preference chain with the
2x entry preferred over the 1x entry, the first matching file in source
order wins (via find?), and when neither matches the emote resolves to
nothing, which skips the emote without aborting the loop.  The labels
of the chain are realised in the code as the literal file names 2x.webp
and 1x.webp (see C9). -/
theorem c5_resolver_chain (e : Emote) (net : String → HttpImageResp) (rest : List Emote) :
    select_image_url e =
      (resolve_by_chain ["2x.webp", "1x.webp"] e.data.host.files).map (emote_image_url e) ∧
    (select_image_url e = none →
      process_emotes net (e :: rest) = process_emotes net rest) := by
  constructor
  · simp only [select_image_url, resolve_by_chain]
    cases h2 : e.data.host.files.find? (fun f => f.name == "2x.webp") with
    | some f => simp
    | none =>
      cases h1 : e.data.host.files.find? (fun f => f.name == "1x.webp") with
      | some f => simp
      | none => simp
  · intro h
    simp [process_emotes, h]

/-- Witness for C5 at an emote with no acceptable variant. -/
theorem c5_witness :
    select_image_url emoteNoVariant =
      (resolve_by_chain ["2x.webp", "1x.webp"] emoteNoVariant.data.host.files).map
        (emote_image_url emoteNoVariant) ∧
    process_emotes netOK (emoteNoVariant :: [mkEmote 0]) = process_emotes netOK [mkEmote 0] :=
  ⟨(c5_resolver_chain emoteNoVariant netOK [mkEmote 0]).1,
   (c5_resolver_chain emoteNoVariant netOK [mkEmote 0]).2 (by decide)⟩

/-- C6: every successfully transcoded image has mode RGBA, dimensions
exactly 512 by 512, format PNG, and was resized with LANCZOS, which is
not nearest-neighbor; this holds for every source mode and every source
aspect ratio, because resize forces both dimensions. -/
theorem c6_transcode_conforms (resp : HttpImageResp) (t : TranscodedImage)
    (h : download_emote_image resp = .ok t) :
    t.mode = "RGBA" ∧ t.width = 512 ∧ t.height = 512 ∧ t.format = "PNG" ∧
    t.filter = ResampleFilter.LANCZOS ∧
    ResampleFilter.LANCZOS ≠ ResampleFilter.NEAREST := by
  unfold download_emote_image at h
  by_cases hs : resp.status = 200
  · rw [if_pos hs] at h
    cases hi : resp.image with
    | none => rw [hi] at h; simp at h
    | some img0 =>
      rw [hi] at h
      simp only [Except.ok.injEq] at h
      subst h
      refine ⟨?_, rfl, rfl, rfl, rfl, by simp⟩
      by_cases hm : img0.mode = "RGBA"
      · simp [img_resize, if_pos hm, hm]
      · simp [img_resize, img_convert, if_neg hm]
  · rw [if_neg hs] at h; simp at h

/-- Witness for C6 at a non-square, non-RGBA source image. -/
theorem c6_witness :
    tExample.mode = "RGBA" ∧ tExample.width = 512 ∧ tExample.height = 512 ∧
    tExample.format = "PNG" ∧ tExample.filter = ResampleFilter.LANCZOS ∧
    ResampleFilter.LANCZOS ≠ ResampleFilter.NEAREST :=
  c6_transcode_conforms respNonSquare tExample rfl

/-- C7: a non-200 metadata response makes the whole conversion fail
with the fetch error carrying the status, and the trace shows no
downloads and no publish calls: no per-item work happens. -/
theorem c7_metadata_failure_aborts (net : String → HttpImageResp)
    (publish : PublishCall → Except String Bool) (bu : String) (uid : Nat)
    (sid : String) (cn : Option String) (mr : MetaResp)
    (h : mr.status ≠ 200) :
    convert_7tv_set net publish bu uid sid cn mr =
      { publishCalls := [], downloads := [], failures := [],
        result := .error (.exception
          ("Failed to fetch 7TV data: " ++ toString mr.status)) } := by
  unfold convert_7tv_set get_7tv_emote_set
  rw [if_neg h]

/-- Witness for C7 at a 404 metadata response. -/
theorem c7_witness :
    convert_7tv_set netOK pubOK "bot" 1 "S" none meta404 =
      { publishCalls := [], downloads := [], failures := [],
        result := .error (.exception "Failed to fetch 7TV data: 404") } :=
  c7_metadata_failure_aborts netOK pubOK "bot" 1 "S" none meta404 (by decide)

/-- C9: only files named exactly 2x.webp or 1x.webp are ever selected;
an emote all of whose variants carry any other name, such as 2x.avif or
1x.png, resolves to nothing and is skipped by the loop. -/
theorem c9_webp_names_only (e : Emote) (net : String → HttpImageResp)
    (rest : List Emote)
    (h : ∀ f ∈ e.data.host.files, f.name ≠ "2x.webp" ∧ f.name ≠ "1x.webp") :
    select_image_url e = none ∧
    process_emotes net (e :: rest) = process_emotes net rest := by
  have h2 : e.data.host.files.find? (fun f => f.name == "2x.webp") = none := by
    rw [List.find?_eq_none]
    intro f hf
    simp [(h f hf).1]
  have h1 : e.data.host.files.find? (fun f => f.name == "1x.webp") = none := by
    rw [List.find?_eq_none]
    intro f hf
    simp [(h f hf).2]
  have hsel : select_image_url e = none := by
    simp [select_image_url, h2, h1]
  exact ⟨hsel, by simp [process_emotes, hsel]⟩

/-- Witness for C9 at an emote publishing only avif and png encodings. -/
theorem c9_witness :
    select_image_url emoteAvif = none ∧
    process_emotes netOK (emoteAvif :: [mkEmote 0]) = process_emotes netOK [mkEmote 0] :=
  c9_webp_names_only emoteAvif netOK [mkEmote 0] (by decide)

/-- C10: a 200 metadata body without the emotes key makes the
conversion escape with the KeyError raised by the direct index in the
batch-building step, not a success over an empty set, while the count
expression of line 136 would have defaulted the same key to the empty
list. -/
theorem c10_missing_emotes_key (net : String → HttpImageResp)
    (publish : PublishCall → Except String Bool) (bu : String) (uid : Nat)
    (sid : String) (cn : Option String) (mr : MetaResp)
    (h200 : mr.status = 200) (hk : mr.body.emotes = none) :
    (convert_7tv_set net publish bu uid sid cn mr).result =
      .error (.keyError "emotes") ∧
    mr.body.emotes.getD [] = [] := by
  constructor
  · simp [convert_7tv_set, get_7tv_emote_set, h200, create_telegram_sticker_set, hk,
          finish_convert]
  · rw [hk]; rfl

/-- Witness for C10 at a concrete body lacking the emotes key. -/
theorem c10_witness :
    (convert_7tv_set netOK pubOK "bot" 1 "S" none metaNoKey).result =
      .error (.keyError "emotes") ∧
    metaNoKey.body.emotes.getD [] = [] :=
  c10_missing_emotes_key netOK pubOK "bot" 1 "S" none metaNoKey rfl rfl

/-- Counterexample to C1: a set of sixty emotes, all resolvable and
decodable with no failures, for which the conversion reports a count of
60, not the claimed min of resolvable count and capacity, 50. -/
theorem c1_counterexample :
    (process_emotes netOK emotes60).stickers.length = 60 ∧
    (process_emotes netOK emotes60).failures = [] ∧
    (convert_7tv_set netOK pubOK "bot" 1 "S" none meta60).result =
      .ok ("https://t.me/addstickers/7tv_S_by_bot", 60) ∧
    (60 : Nat) ≠ 50 :=
  ⟨rfl, rfl, rfl, by decide⟩

/-- C1 amended: when the metadata fetch succeeds with an emotes key and
the platform accepts the publish call, the conversion succeeds and the
count it returns is the total length of the emotes array of the
metadata (line 136), independent of how many emotes were resolvable and
of the capacity truncation. -/
theorem c1_success_count_is_total (net : String → HttpImageResp)
    (publish : PublishCall → Except String Bool) (bu : String) (uid : Nat)
    (sid : String) (cn : Option String) (mr : MetaResp) (es : List Emote)
    (h200 : mr.status = 200) (hem : mr.body.emotes = some es)
    (hpub : ∀ call, publish call = .ok true) :
    (convert_7tv_set net publish bu uid sid cn mr).result =
      .ok ("https://t.me/addstickers/" ++ derive_set_name cn sid bu, es.length) := by
  simp [convert_7tv_set, get_7tv_emote_set, h200, create_telegram_sticker_set, hem,
        publish_step, hpub, finish_convert]

/-- Witness for the amended C1 at the sixty-emote set. -/
theorem c1_amended_witness :
    (convert_7tv_set netOK pubOK "bot" 1 "S" none meta60).result =
      .ok ("https://t.me/addstickers/" ++ derive_set_name none "S" "bot",
           emotes60.length) :=
  c1_success_count_is_total netOK pubOK "bot" 1 "S" none meta60 emotes60 rfl rfl
    (fun _ => rfl)

/-- Counterexample to C2: a conversion in which zero items survive (the
only emote has no usable variant, so the batch is empty), yet the
create-sticker-set operation is invoked once with the empty batch, and
with an accepting platform the conversion even reports success with
count 1 instead of failing with an empty-batch error. -/
theorem c2_counterexample :
    ((convert_7tv_set netOK pubOK "bot" 1 "S" none metaEmpty).publishCalls.headD
        { user_id := 0, name := "", title := "", stickers := [],
          sticker_format := "" }).stickers = [] ∧
    (convert_7tv_set netOK pubOK "bot" 1 "S" none metaEmpty).publishCalls.length = 1 ∧
    (convert_7tv_set netOK pubOK "bot" 1 "S" none metaEmpty).result =
      .ok ("https://t.me/addstickers/7tv_S_by_bot", 1) :=
  ⟨rfl, rfl, rfl⟩

/-- C2 amended: there is no empty-batch guard: whenever the metadata
fetch succeeds and the emotes key is present, the create-sticker-set
operation is invoked exactly once, with the truncated and possibly
empty batch; failure can only come from the platform response, never
from a pre-publish emptiness check. -/
theorem c2_publish_always_invoked (net : String → HttpImageResp)
    (publish : PublishCall → Except String Bool) (bu : String) (uid : Nat)
    (sid : String) (cn : Option String) (mr : MetaResp) (es : List Emote)
    (h200 : mr.status = 200) (hem : mr.body.emotes = some es) :
    (convert_7tv_set net publish bu uid sid cn mr).publishCalls.length = 1 := by
  simp [convert_7tv_set, get_7tv_emote_set, h200, create_telegram_sticker_set, hem,
        finish_convert_publishCalls, publish_step_calls]

/-- Witness for the amended C2 at the empty-batch conversion. -/
theorem c2_amended_witness :
    (convert_7tv_set netOK pubOK "bot" 1 "S" none metaEmpty).publishCalls.length = 1 :=
  c2_publish_always_invoked netOK pubOK "bot" 1 "S" none metaEmpty [emoteNoVariant]
    rfl rfl

/-- A 200 metadata response whose first emote has no usable variant and
whose second is resolvable. -/
def metaGhost : MetaResp :=
  { status := 200, body := { name := none, emotes := some [emoteNoVariant, mkEmote 0] } }

/-- Counterexample to C3: the first emote fails resolution (no usable
variant), yet the conversion records no failure pair for it anywhere:
the failure log stays empty while the other emote is still published.
The claim that a resolution failure records (emoteName, reason) is
false. -/
theorem c3_counterexample :
    select_image_url emoteNoVariant = none ∧
    (convert_7tv_set netOK pubOK "bot" 1 "S" none metaGhost).failures = [] ∧
    ((convert_7tv_set netOK pubOK "bot" 1 "S" none metaGhost).publishCalls.headD
        { user_id := 0, name := "", title := "", stickers := [],
          sticker_format := "" }).stickers.length = 1 :=
  ⟨rfl, rfl, rfl⟩

/-- C3 amended: a failure during transcoding (for example a non-200
asset response) records (emoteName, reason) in the printed failure log
and the loop continues, leaving the stickers of the surrounding emotes
untouched; a failure during resolution, by contrast, skips the emote
silently with no record at all; in neither case does the loop abort. -/
theorem c3_per_item_failure_isolation (net : String → HttpImageResp)
    (xs ys : List Emote) (e : Emote) :
    (∀ u, select_image_url e = some u → (net u).status ≠ 200 →
      process_emotes net (xs ++ e :: ys) =
        { stickers := (process_emotes net xs).stickers ++
            (process_emotes net ys).stickers,
          failures := (process_emotes net xs).failures ++
            (e.name, TranscodeErr.downloadError ((net u).status)) ::
              (process_emotes net ys).failures,
          downloads := (process_emotes net xs).downloads ++
            u :: (process_emotes net ys).downloads }) ∧
    (select_image_url e = none →
      process_emotes net (xs ++ e :: ys) =
        { stickers := (process_emotes net xs).stickers ++
            (process_emotes net ys).stickers,
          failures := (process_emotes net xs).failures ++
            (process_emotes net ys).failures,
          downloads := (process_emotes net xs).downloads ++
            (process_emotes net ys).downloads }) := by
  constructor
  · intro u hsel hst
    have hd : download_emote_image (net u) =
        .error (.downloadError ((net u).status)) := by
      unfold download_emote_image
      rw [if_neg hst]
    rw [process_emotes_append]
    simp [process_emotes, hsel, hd]
  · intro hsel
    rw [process_emotes_append]
    simp [process_emotes, hsel]

/-- The asset URL of mkEmote 5, served with status 500 by the failing
host of the C3 witness. -/
def badURL : String := "https://cdn.7tv.app/emote/5/2x.webp"

/-- Witness for the amended C3: one emote in the middle of three gets a
500 from its host, is recorded with the download error, and the two
sibling emotes are unaffected. -/
theorem c3_amended_witness :
    process_emotes (netFail badURL) ([mkEmote 1] ++ mkEmote 5 :: [mkEmote 2]) =
      { stickers := (process_emotes (netFail badURL) [mkEmote 1]).stickers ++
          (process_emotes (netFail badURL) [mkEmote 2]).stickers,
        failures := (process_emotes (netFail badURL) [mkEmote 1]).failures ++
          ((mkEmote 5).name,
            TranscodeErr.downloadError ((netFail badURL badURL).status)) ::
            (process_emotes (netFail badURL) [mkEmote 2]).failures,
        downloads := (process_emotes (netFail badURL) [mkEmote 1]).downloads ++
          badURL :: (process_emotes (netFail badURL) [mkEmote 2]).downloads } :=
  (c3_per_item_failure_isolation (netFail badURL) [mkEmote 1] [mkEmote 2]
      (mkEmote 5)).1 badURL (by decide) (by decide)

/-- Counterexample to C8: a supplied but empty custom name is falsy in
Python, so the derivation falls back to the default form instead of the
claimed empty-slug form. -/
theorem c8_counterexample :
    derive_set_name (some "") "S" "bot" = "7tv_S_by_bot" ∧
    "7tv_S_by_bot" ≠ "" ++ "_by_" ++ "bot" :=
  ⟨rfl, by decide⟩

/-- C8 amended: the derived setName equals the custom slug plus the
suffix only when the supplied custom name is non-empty; an absent or
empty custom name both yield the 7tv-prefixed default.  The derivation
is a pure function of the three inputs, hence deterministic, and it is
exactly the name passed to the platform call. -/
theorem c8_naming_amended (cn : Option String) (sid bu : String) :
    (∀ s, cn = some s → s ≠ "" →
      derive_set_name cn sid bu = s ++ "_by_" ++ bu) ∧
    ((cn = none ∨ cn = some "") →
      derive_set_name cn sid bu = "7tv_" ++ sid ++ "_by_" ++ bu) ∧
    (∀ (net : String → HttpImageResp) (publish : PublishCall → Except String Bool)
        (uid : Nat) (mr : MetaResp) (es : List Emote),
      mr.status = 200 → mr.body.emotes = some es →
      (convert_7tv_set net publish bu uid sid cn mr).publishCalls.map
        (fun c => c.name) = [derive_set_name cn sid bu]) := by
  refine ⟨?_, ?_, ?_⟩
  · intro s hs hne
    subst hs
    simp [derive_set_name, py_truthy, hne]
  · rintro (h | h) <;> subst h <;> simp [derive_set_name, py_truthy]
  · intro net publish uid mr es h200 hem
    simp [convert_7tv_set, get_7tv_emote_set, h200, create_telegram_sticker_set, hem,
          finish_convert_publishCalls, publish_step_calls]

/-- Witness for the amended C8 at a non-empty custom name. -/
theorem c8_amended_witness :
    derive_set_name (some "pogs") "S" "bot" = "pogs" ++ "_by_" ++ "bot" ∧
    (convert_7tv_set netOK pubOK "bot" 1 "S" (some "pogs") metaEmpty).publishCalls.map
      (fun c => c.name) = [derive_set_name (some "pogs") "S" "bot"] :=
  ⟨(c8_naming_amended (some "pogs") "S" "bot").1 "pogs" rfl (by decide),
   (c8_naming_amended (some "pogs") "S" "bot").2.2 netOK pubOK 1 metaEmpty
     [emoteNoVariant] rfl rfl⟩

end SevenTV
